import Mathlib

/-!
Verification of the research-agent / agentic-RAG execution core of the
`ts-ai-agent-learning` repository.

The development shallowly embeds the two modules that carry the control-flow
logic of the repository:

* the agentic-RAG critique-refine loop (`agenticRAG`, `generateAnswer`,
  `critiqueAnswer`, `retrieve`);
* the LangGraph research pipeline (`planResearch`, `executeSearches`,
  `extractInformation`, `synthesizeReport`, `createResearchAgent`).

External collaborators (the LLM completion provider) are modelled as injected
functions returning `Except`; the JavaScript runtime pieces the code relies on
(`JSON.parse`, `String.prototype.match` with the three concrete patterns used
by the source, `Set` deduplication, truthiness coercion) are modelled
explicitly below. JavaScript numbers are modelled as rationals: every numeric
literal compared by the source (0.8, 0.7, 0.1, ...) is exactly representable
and only order comparisons on them matter.
-/

deriving instance DecidableEq for Except

namespace AgentSpec

/-! ## JSON values and a model of the JavaScript runtime pieces -/

/-- JSON values, as produced by the JavaScript `JSON.parse`. Object fields are
kept in source order; `jsGet` below resolves duplicate keys the way
`JSON.parse` does (the last binding wins). -/
inductive Json where
  | null : Json
  | bool (b : Bool) : Json
  | num (q : ℚ) : Json
  | str (s : String) : Json
  | arr (elems : List Json) : Json
  | obj (fields : List (String × Json)) : Json

/-- Whitespace accepted between JSON tokens by `JSON.parse`. -/
def isJsonWs (c : Char) : Bool :=
  c == ' ' || c == '\t' || c == '\n' || c == '\r'

/-- Drop leading JSON whitespace. -/
def skipWs : List Char → List Char
  | [] => []
  | c :: cs => if isJsonWs c then skipWs cs else c :: cs

/-- Value of a hexadecimal digit, used for `\uXXXX` string escapes. -/
def hexVal (c : Char) : Option Nat :=
  if c.isDigit then some (c.toNat - 48)
  else if 'a' ≤ c ∧ c ≤ 'f' then some (c.toNat - 87)
  else if 'A' ≤ c ∧ c ≤ 'F' then some (c.toNat - 55)
  else none

/-- Single-character JSON string escapes. -/
def escChar (c : Char) : Option Char :=
  if c = '"' then some '"'
  else if c = '\\' then some '\\'
  else if c = '/' then some '/'
  else if c = 'b' then some '\x08'
  else if c = 'f' then some '\x0c'
  else if c = 'n' then some '\n'
  else if c = 'r' then some '\r'
  else if c = 't' then some '\t'
  else none

/-- Parse the body of a JSON string (the opening quote already consumed),
returning the decoded string and the remaining input. Raw control characters
are rejected, as `JSON.parse` rejects them. -/
def parseStringBody : List Char → Option (String × List Char)
  | [] => none
  | '"' :: rest => some ("", rest)
  | '\\' :: 'u' :: h1 :: h2 :: h3 :: h4 :: rest =>
    match hexVal h1, hexVal h2, hexVal h3, hexVal h4 with
    | some v1, some v2, some v3, some v4 =>
      match parseStringBody rest with
      | some (s, r) =>
        some (String.mk (Char.ofNat (((v1 * 16 + v2) * 16 + v3) * 16 + v4) :: s.data), r)
      | none => none
    | _, _, _, _ => none
  | '\\' :: c :: rest =>
    match escChar c with
    | some e =>
      match parseStringBody rest with
      | some (s, r) => some (String.mk (e :: s.data), r)
      | none => none
    | none => none
  | c :: rest =>
    if c.toNat < 32 then none
    else
      match parseStringBody rest with
      | some (s, r) => some (String.mk (c :: s.data), r)
      | none => none

/-- Numeric value of a list of decimal digits. -/
def digitsToNat (ds : List Char) : Nat :=
  ds.foldl (fun acc c => acc * 10 + (c.toNat - 48)) 0

/-- Assemble a JSON number from its parsed parts: sign, integer part,
fraction digits and exponent. Written as a single `mkRat` over integer
arithmetic so that concrete parses reduce inside the kernel. -/
def buildNum (neg : Bool) (intVal : Nat) (frac : List Char) (eneg : Bool) (e : Nat) : ℚ :=
  let mantissa : Nat := intVal * 10 ^ frac.length + digitsToNat frac
  let numMag : Nat := if eneg then mantissa else mantissa * 10 ^ e
  let den : Nat := if eneg then 10 ^ frac.length * 10 ^ e else 10 ^ frac.length
  mkRat (if neg then Int.negOfNat numMag else Int.ofNat numMag) den

/-- Parse the optional exponent part of a JSON number. -/
def parseExpPart (neg : Bool) (intVal : Nat) (frac : List Char) (cs : List Char) :
    Option (ℚ × List Char) :=
  match cs with
  | c :: rest =>
    if c = 'e' ∨ c = 'E' then
      let p :=
        match rest with
        | '+' :: r => (false, r)
        | '-' :: r => (true, r)
        | r => (false, r)
      let q := p.2.span (fun c => c.isDigit)
      if q.1.isEmpty then none
      else some (buildNum neg intVal frac p.1 (digitsToNat q.1), q.2)
    else some (buildNum neg intVal frac false 0, c :: rest)
  | [] => some (buildNum neg intVal frac false 0, [])

/-- Parse the optional fraction part of a JSON number, then the exponent. -/
def parseFracPart (neg : Bool) (intVal : Nat) (cs : List Char) : Option (ℚ × List Char) :=
  match cs with
  | '.' :: rest =>
    let p := rest.span (fun c => c.isDigit)
    if p.1.isEmpty then none else parseExpPart neg intVal p.1 p.2
  | _ => parseExpPart neg intVal [] cs

/-- Parse a JSON number following the `JSON.parse` grammar: an optional minus
sign, `0` or a nonzero-led digit run, an optional fraction, an optional
exponent. Leading zeros are rejected as `JSON.parse` rejects them. -/
def parseNumber (cs : List Char) : Option (ℚ × List Char) :=
  let p :=
    match cs with
    | '-' :: rest => (true, rest)
    | rest => (false, rest)
  match p.2 with
  | '0' :: c :: rest =>
    if c.isDigit then none else parseFracPart p.1 0 (c :: rest)
  | '0' :: [] => some (buildNum p.1 0 [] false 0, [])
  | c :: rest =>
    if c.isDigit then
      let q := (c :: rest).span (fun d => d.isDigit)
      parseFracPart p.1 (digitsToNat q.1) q.2
    else none
  | [] => none

/-- Parse a comma-separated list of JSON array elements up to the closing
bracket, with the element parser passed in as `pv`. Fuel bounds the number of
elements. -/
def parseElems (pv : List Char → Option (Json × List Char)) :
    Nat → List Char → Option (List Json × List Char)
  | 0, _ => none
  | fuel + 1, cs =>
    match pv cs with
    | none => none
    | some (v, rest) =>
      match skipWs rest with
      | ',' :: rest2 =>
        match parseElems pv fuel rest2 with
        | some (vs, rest3) => some (v :: vs, rest3)
        | none => none
      | ']' :: rest2 => some ([v], rest2)
      | _ => none

/-- Parse a comma-separated list of JSON object members up to the closing
brace, with the value parser passed in as `pv`. -/
def parseFields (pv : List Char → Option (Json × List Char)) :
    Nat → List Char → Option (List (String × Json) × List Char)
  | 0, _ => none
  | fuel + 1, cs =>
    match skipWs cs with
    | '"' :: rest =>
      match parseStringBody rest with
      | none => none
      | some (key, rest2) =>
        match skipWs rest2 with
        | ':' :: rest3 =>
          match pv rest3 with
          | none => none
          | some (v, rest4) =>
            match skipWs rest4 with
            | ',' :: rest5 =>
              match parseFields pv fuel rest5 with
              | some (fs, rest6) => some ((key, v) :: fs, rest6)
              | none => none
            | '\x7d' :: rest5 => some ([(key, v)], rest5)
            | _ => none
        | _ => none
    | _ => none

/-- Parse one JSON value. Fuel bounds the nesting depth and element counts;
`jsonParse` supplies enough fuel that exhaustion never rejects valid input. -/
def parseValue : Nat → List Char → Option (Json × List Char)
  | 0, _ => none
  | fuel + 1, cs =>
    match skipWs cs with
    | 'n' :: 'u' :: 'l' :: 'l' :: rest => some (Json.null, rest)
    | 't' :: 'r' :: 'u' :: 'e' :: rest => some (Json.bool true, rest)
    | 'f' :: 'a' :: 'l' :: 's' :: 'e' :: rest => some (Json.bool false, rest)
    | '"' :: rest =>
      match parseStringBody rest with
      | some (s, r) => some (Json.str s, r)
      | none => none
    | '[' :: rest =>
      match skipWs rest with
      | ']' :: rest2 => some (Json.arr [], rest2)
      | rest2 =>
        match parseElems (parseValue fuel) fuel rest2 with
        | some (vs, rest3) => some (Json.arr vs, rest3)
        | none => none
    | '\x7b' :: rest =>
      match skipWs rest with
      | '\x7d' :: rest2 => some (Json.obj [], rest2)
      | rest2 =>
        match parseFields (parseValue fuel) fuel rest2 with
        | some (fs, rest3) => some (Json.obj fs, rest3)
        | none => none
    | c :: rest =>
      if c = '-' ∨ c.isDigit then
        match parseNumber (c :: rest) with
        | some (q, r) => some (Json.num q, r)
        | none => none
      else none
    | [] => none

/-- Model of the JavaScript `JSON.parse`: parse one JSON value and require
that only whitespace follows; `none` models a thrown `SyntaxError`. -/
def jsonParse (s : String) : Option Json :=
  match parseValue (2 * s.data.length + 2) s.data with
  | some (v, rest) => if skipWs rest = [] then some v else none
  | none => none

/-- Property access on a parsed JSON value, as JavaScript property access on
the `JSON.parse` result: only objects yield fields (`none` models
`undefined`), and with duplicate keys the last binding wins. -/
def jsGet (j : Json) (key : String) : Option Json :=
  match j with
  | Json.obj fields => fields.reverse.lookup key
  | _ => none

/-- JavaScript truthiness of a possibly-absent JSON value: `undefined`,
`null`, `false`, `0` and the empty string are falsy. -/
def jsTruthy : Option Json → Bool
  | none => false
  | some Json.null => false
  | some (Json.bool b) => b
  | some (Json.num q) => !(q.num == 0)
  | some (Json.str s) => !(s == "")
  | some (Json.arr _) => true
  | some (Json.obj _) => true

/-- Model of `x || d` for a field the source declares as `number`: `0`,
`null` and an absent field fall back to the default. A truthy non-numeric
value also maps to the default here; the surrounding script would fail on
`toFixed` before such a value could be observed, and no verified path
produces one. -/
def jsNumOrDefault (v : Option Json) (d : ℚ) : ℚ :=
  match v with
  | some (Json.num q) => if q.num = 0 then d else q
  | _ => d

/-- Read a field the source declares as `string`; non-string runtime values
are outside the TypeScript type and are collapsed to the empty string. -/
def jsStringField : Option Json → String
  | some (Json.str s) => s
  | _ => ""

/-- Model of the first regex of the source, `/\x7b[\s\S]*\x7d/`, applied by
`String.prototype.match`: the (unique) match runs from the first opening
brace to the last closing brace, provided the latter does not precede the
former. -/
def braceMatch (s : String) : Option String :=
  let cs := s.data
  match cs.findIdx? (fun c => c == '\x7b'), cs.reverse.findIdx? (fun c => c == '\x7d') with
  | some i, some k =>
    let j := cs.length - 1 - k
    if i ≤ j then some (String.mk ((cs.drop i).take (j + 1 - i))) else none
  | _, _ => none

/-- Model of the regex `/\[[\s\S]*\]/` used by `planResearch`: from the first
opening bracket to the last closing bracket. -/
def bracketMatch (s : String) : Option String :=
  let cs := s.data
  match cs.findIdx? (fun c => c == '['), cs.reverse.findIdx? (fun c => c == ']') with
  | some i, some k =>
    let j := cs.length - 1 - k
    if i ≤ j then some (String.mk ((cs.drop i).take (j + 1 - i))) else none
  | _, _ => none

/-! ## The model provider interface (`src/lib/models/provider.ts`)

The concrete providers (OpenAI, Anthropic, Google) are thin SDK glue around an
external network service; the agent code under verification reads only the
`content` field of the response. A provider is modelled as an injected
function from a completion request to `Except ε` of a response, where `ε` is
an abstract type of upstream provider errors; `Except.error` models a rejected
promise (a thrown provider error). -/

/-- Chat message roles, from the `Message` interface of `provider.ts`. -/
inductive Role where
  | system : Role
  | user : Role
  | assistant : Role
deriving DecidableEq

/-- A chat message, from the `Message` interface of `provider.ts`. -/
structure Message where
  role : Role
  content : String
deriving DecidableEq

/-- A completion request, from the `CompletionRequest` interface of
`provider.ts`. The `tools` field is omitted: the modules under verification
never set it. Optional fields are `Option`; the source leaves them
`undefined` when not set. -/
structure CompletionRequest where
  messages : List Message
  maxTokens : Option Nat
  temperature : Option ℚ
  stopSequences : Option (List String)
deriving DecidableEq

/-- A completion response, from the `CompletionResponse` interface of
`provider.ts`. The agent modules under verification read only `content`;
`finishReason`, `usage` and `toolCalls` are omitted. -/
structure CompletionResponse where
  content : String
deriving DecidableEq

/-- The `ModelProvider` interface of `provider.ts`: a name and a fallible
completion call. `streamComplete` is omitted: the modules under verification
never call it. -/
structure ModelProvider (ε : Type) where
  name : String
  complete : CompletionRequest → Except ε CompletionResponse

/-- Errors that can abort an agent run: an upstream provider error
propagating out of `complete`, or a `SyntaxError` thrown by an unguarded
`JSON.parse` call inside a stage. -/
inductive RunError (ε : Type) where
  | upstream (e : ε) : RunError ε
  | jsonSyntaxError : RunError ε
deriving DecidableEq

namespace RAG

/-! ## The agentic-RAG critique-refine loop (`agentic-rag` module, `src/unnamed/part_008`) -/

/-- The result record of `agenticRAG` (`AgenticRAGResult` in the source). -/
structure AgenticRAGResult where
  answer : String
  confidence : ℚ
  iterationCount : Nat
  hallucinationsDetected : Bool
  refinementLog : List String
deriving DecidableEq

/-- The record returned by `critiqueAnswer` in the source, typed
`\x7b satisfactory: boolean; feedback: string; confidence: number \x7d`. -/
structure CritiqueResult where
  satisfactory : Bool
  feedback : String
  confidence : ℚ
deriving DecidableEq

/-- The mock retrieval function of the source: ignores the query and returns
three fixed context documents. -/
def retrieve (_query : String) : List String :=
  ["RAG (Retrieval-Augmented Generation) enhances LLMs by providing relevant context from external knowledge sources.",
   "Benefits of RAG include: reduced hallucinations, up-to-date information, domain-specific knowledge, and cost-effectiveness.",
   "RAG systems typically use vector embeddings and similarity search to find relevant documents."]

/-- The completion request built by `generateAnswer`: the numbered context
documents and the question, with `maxTokens: 500`. -/
def generateRequest (query : String) (context : List String) : CompletionRequest :=
  let contextText :=
    String.intercalate "\n\n" (context.enum.map (fun p => "[" ++ toString (p.1 + 1) ++ "] " ++ p.2))
  ⟨[⟨Role.system,
     "You are a helpful assistant. Answer questions based ONLY on the provided context. Include citation numbers [1], [2], etc."⟩,
    ⟨Role.user,
     "Context:\n" ++ contextText ++ "\n\nQuestion: " ++ query ++ "\n\nAnswer:"⟩],
   some 500, none, none⟩

/-- `generateAnswer` of the source: one completion call; the response content
is the answer. A provider error propagates (the source does not catch). -/
def generateAnswer (p : ModelProvider ε) (query : String) (context : List String) :
    Except (RunError ε) String :=
  match p.complete (generateRequest query context) with
  | Except.error e => Except.error (RunError.upstream e)
  | Except.ok resp => Except.ok resp.content

/-- The completion request built by `critiqueAnswer`: question, joined
context, answer and the JSON-format evaluation instructions, with
`maxTokens: 500` and `temperature: 0.3`. -/
def critiqueRequest (query answer : String) (context : List String) : CompletionRequest :=
  let contextText := String.intercalate "\n" context
  ⟨[⟨Role.system,
     "You are an answer quality evaluator. Check if the answer is accurate, complete, and grounded in the context."⟩,
    ⟨Role.user,
     "Question: " ++ query ++ "\n\nContext:\n" ++ contextText ++ "\n\nAnswer: " ++ answer ++
     "\n\nEvaluate this answer. Respond in JSON format:\n\x7b\n  \"satisfactory\": true/false,\n  \"confidence\": 0.0-1.0,\n  \"feedback\": \"explanation of issues or confirmation of quality\",\n  \"hallucinations\": [\"list any claims not in context\"],\n  \"missing_info\": [\"list any missing important points\"]\n\x7d"⟩],
   some 500, some (mkRat 3 10), none⟩

/-- The parsing tail of `critiqueAnswer`, applied to the completion response
content: the object match `/\x7b[\s\S]*\x7d/`, where no match yields the
optimistic default; a match is fed to `JSON.parse` unguarded, so invalid JSON
throws (`RunError.jsonSyntaxError`). On a parse the three fields are read
with JavaScript semantics: `satisfactory` by truthiness, `feedback` as a
string, `confidence` through `critique.confidence || 0.7`. -/
def critiqueParse (content : String) : Except (RunError ε) CritiqueResult :=
  match braceMatch content with
  | none => Except.ok ⟨true, "Unable to parse critique", mkRat 7 10⟩
  | some m =>
    match jsonParse m with
    | none => Except.error RunError.jsonSyntaxError
    | some critique =>
      Except.ok ⟨jsTruthy (jsGet critique "satisfactory"),
                 jsStringField (jsGet critique "feedback"),
                 jsNumOrDefault (jsGet critique "confidence") (mkRat 7 10)⟩

/-- `critiqueAnswer` of the source: one completion call, then `critiqueParse`
on the response content. A provider error propagates (the source does not
catch). -/
def critiqueAnswer (p : ModelProvider ε) (query answer : String) (context : List String) :
    Except (RunError ε) CritiqueResult :=
  match p.complete (critiqueRequest query answer context) with
  | Except.error e => Except.error (RunError.upstream e)
  | Except.ok resp => critiqueParse resp.content

/-- Model of JavaScript `Number.prototype.toFixed(2)` on a rational: round
`q * 100` to the nearest integer (halves up, computed as
`⌊(200 q + 1) / 2⌋` on numerator and denominator so the kernel can reduce
it) and print with two decimal places. Used only inside refinement-log
strings. -/
def toFixed2 (q : ℚ) : String :=
  let n : ℤ := Int.fdiv (q.num * 200 + q.den) (2 * q.den)
  let m : Nat := n.natAbs
  (if n < 0 then "-" else "") ++ toString (m / 100) ++ "." ++
    (if m % 100 < 10 then "0" else "") ++ toString (m % 100)

/-- One refinement-log line, as pushed by the source each iteration. -/
def logLine (iteration : Nat) (confidence : ℚ) (feedback : String) : String :=
  let n := iteration + 1
  "Iteration " ++ toString n ++ ": Confidence " ++ toFixed2 confidence ++ " - " ++ feedback

/-- The `for (iteration = 0; iteration < maxIterations; iteration++)` loop of
`agenticRAG`. `fuel` is a ghost counter kept equal to
`maxIterations - iteration` by `agenticRAG` so that the recursion is
structural; with that invariant `fuel = 0` holds exactly when the loop
condition `iteration < maxIterations` fails, and both exits build the result
record of the source — note the source reads the loop variable after the loop,
so on a normal (no-`break`) exit `iteration = maxIterations` and the stored
`iterationCount` is `iteration + 1`. -/
def agenticRAGLoop (p : ModelProvider ε) (query : String) (maxIterations : Nat) :
    Nat → Nat → String → String → ℚ → List String → Except (RunError ε) AgenticRAGResult
  | 0, iteration, _currentQuery, answer, confidence, refinementLog =>
    Except.ok ⟨answer, confidence, iteration + 1, decide (confidence < mkRat 7 10), refinementLog⟩
  | fuel + 1, iteration, currentQuery, answer, confidence, refinementLog =>
    if iteration < maxIterations then
      let context := retrieve currentQuery
      match generateAnswer p currentQuery context with
      | Except.error e => Except.error e
      | Except.ok answer =>
        match critiqueAnswer p currentQuery answer context with
        | Except.error e => Except.error e
        | Except.ok critique =>
          let confidence := critique.confidence
          let refinementLog := refinementLog ++ [logLine iteration confidence critique.feedback]
          if critique.satisfactory ∧ mkRat 8 10 ≤ confidence then
            Except.ok ⟨answer, confidence, iteration + 1, decide (confidence < mkRat 7 10), refinementLog⟩
          else
            let currentQuery :=
              if iteration < maxIterations - 1 then
                query ++ " (focusing on: " ++ critique.feedback.take 50 ++ ")"
              else currentQuery
            agenticRAGLoop p query maxIterations fuel (iteration + 1) currentQuery answer confidence refinementLog
    else
      Except.ok ⟨answer, confidence, iteration + 1, decide (confidence < mkRat 7 10), refinementLog⟩

/-- `agenticRAG` of the source: run the critique-refine loop from iteration 0
with the original query, an empty answer, confidence 0 and an empty
refinement log. The source declares `maxIterations: number = 3`; the default
is passed explicitly by callers here. -/
def agenticRAG (p : ModelProvider ε) (query : String) (maxIterations : Nat) :
    Except (RunError ε) AgenticRAGResult :=
  agenticRAGLoop p query maxIterations maxIterations 0 query "" 0 []

end RAG

/-! ## Citation extraction (model of the global regex in `synthesizeReport`)

The source extracts citations with
`content.match(/\[\d+\].*?https?:\/\/[^\s)]+/g) || []` and deduplicates the
matches through a JavaScript `Set`, which preserves first-insertion order. -/

/-- Characters matched by the JavaScript `\s` class (the ones that can occur
in the strings under verification). -/
def isJsSpace (c : Char) : Bool :=
  c == ' ' || c == '\t' || c == '\n' || c == '\r' || c == '\x0b' || c == '\x0c'

/-- Match `https?:\/\/[^\s)]+` at the head of the input: a literal
`http://` or `https://` scheme followed by a nonempty greedy run of
characters that are neither whitespace nor a closing parenthesis. Returns the
matched characters and the rest. -/
def matchUrl (cs : List Char) : Option (List Char × List Char) :=
  let tryTail (scheme : List Char) (rest : List Char) : Option (List Char × List Char) :=
    let p := rest.span (fun c => !(isJsSpace c) && c != ')')
    if p.1.isEmpty then none else some (scheme ++ p.1, p.2)
  if ("https://".data).isPrefixOf cs then
    tryTail ("https://".data) (cs.drop 8)
  else if ("http://".data).isPrefixOf cs then
    tryTail ("http://".data) (cs.drop 7)
  else none

/-- Match `.*?https?:\/\/[^\s)]+` at the head of the input: the lazy dot
takes the fewest characters (none of them line terminators) for the URL part
to match. -/
def matchLazyGapUrl : List Char → Option (List Char × List Char)
  | [] => none
  | c :: rest =>
    match matchUrl (c :: rest) with
    | some p => some p
    | none =>
      if c = '\n' ∨ c = '\r' then none
      else
        match matchLazyGapUrl rest with
        | some (m, r) => some (c :: m, r)
        | none => none

/-- Match the full citation pattern `\[\d+\].*?https?:\/\/[^\s)]+` at the
head of the input. -/
def matchCitationAt (cs : List Char) : Option (List Char × List Char) :=
  match cs with
  | '[' :: rest =>
    let p := rest.span (fun c => c.isDigit)
    if p.1.isEmpty then none
    else
      match p.2 with
      | ']' :: rest2 =>
        match matchLazyGapUrl rest2 with
        | some (m, r) => some ('[' :: p.1 ++ ']' :: m, r)
        | none => none
      | _ => none
  | _ => none

/-- Global scan, as `String.prototype.match` with the `g` flag: find the
leftmost match, emit it, continue after its end. `fuel` bounds the scan by
the input length (every step consumes at least one character). -/
def scanCitations : Nat → List Char → List String
  | 0, _ => []
  | _ + 1, [] => []
  | fuel + 1, c :: rest =>
    match matchCitationAt (c :: rest) with
    | some (m, r) => String.mk m :: scanCitations fuel r
    | none => scanCitations fuel rest

/-- All matches of the citation pattern in a string, in order. -/
def extractCitationMatches (s : String) : List String :=
  scanCitations (s.data.length + 1) s.data

/-- Model of JavaScript `content.split('\n')`: cut the character list at
every newline; a trailing newline yields a trailing empty chunk, as in
JavaScript. `acc` holds the current chunk in reverse. -/
def splitNlAux (acc : List Char) : List Char → List String
  | [] => [String.mk acc.reverse]
  | c :: rest =>
    if c = '\n' then String.mk acc.reverse :: splitNlAux [] rest
    else splitNlAux (c :: acc) rest

/-- Split a string at newlines, as `String.prototype.split` with `'\n'`. -/
def splitNl (s : String) : List String :=
  splitNlAux [] s.data

/-- Model of JavaScript `String.prototype.trim`: drop whitespace from both
ends. -/
def jsTrim (s : String) : String :=
  String.mk (((s.data.dropWhile isJsSpace).reverse.dropWhile isJsSpace).reverse)

/-- Model of JavaScript `Array.from(new Set(xs))`: deduplicate preserving
first-insertion order. -/
def jsSetDedupAux (seen : List String) : List String → List String
  | [] => []
  | x :: rest =>
    if seen.contains x then jsSetDedupAux seen rest
    else x :: jsSetDedupAux (x :: seen) rest

/-- Deduplicate a list of strings preserving first-seen order. -/
def jsSetDedup (xs : List String) : List String :=
  jsSetDedupAux [] xs

namespace Research

/-! ## The research-agent pipeline (`curriculum/intermediate/01-research-agent/graph.ts`) -/

/-- One mock search hit, from the `searchResults` state field. -/
structure SearchResult where
  title : String
  url : String
  snippet : String
deriving DecidableEq

/-- The LangGraph state of the research agent (`ResearchStateAnnotation`):
`query` plus six fields that start `undefined` and are filled by the stages. -/
structure ResearchState where
  query : String
  plan : Option (List String)
  searchResults : Option (List SearchResult)
  extractedInfo : Option (List String)
  report : Option String
  citations : Option (List String)
  currentStep : Option String
deriving DecidableEq

/-- A fresh state carrying only the query, as handed to the compiled graph. -/
def initialState (query : String) : ResearchState :=
  ⟨query, none, none, none, none, none, none⟩

/-- Coerce a parsed JSON plan element to a string. The TypeScript state type
declares `plan: string[]`; non-string elements are rendered through their
JavaScript string coercion, which is how the later stages would consume
them. -/
def jsDisplay : Json → String
  | Json.str s => s
  | Json.num q => toString q
  | Json.bool true => "true"
  | Json.bool false => "false"
  | Json.null => "null"
  | Json.arr _ => ""
  | Json.obj _ => ""

/-- The parsed plan value assigned to the `plan: string[]` field. -/
def jsonToPlan : Json → List String
  | Json.arr xs => xs.map jsDisplay
  | j => [jsDisplay j]

/-- The completion request built by `planResearch`, with `maxTokens: 300`. -/
def planRequest (query : String) : CompletionRequest :=
  ⟨[⟨Role.system,
     "You are a research planning assistant. Given a query, break it down into specific search queries."⟩,
    ⟨Role.user,
     "Query: " ++ query ++
     "\n\nProvide 3-5 specific search queries to answer this comprehensively. Return as JSON array: [\"query1\", \"query2\", ...]"⟩],
   some 300, none, none⟩

/-- `planResearch` of the source: one completion call, then the list match
`/\[[\s\S]*\]/` on the response content. No match falls back to
`[state.query]`; a match is fed to `JSON.parse` unguarded, so invalid JSON
throws. The delta sets `plan` and `currentStep: 'search'`. -/
def planResearch (p : ModelProvider ε) (state : ResearchState) :
    Except (RunError ε) ResearchState :=
  match p.complete (planRequest state.query) with
  | Except.error e => Except.error (RunError.upstream e)
  | Except.ok resp =>
    match bracketMatch resp.content with
    | none =>
      Except.ok { state with plan := some [state.query], currentStep := some "search" }
    | some m =>
      match jsonParse m with
      | none => Except.error RunError.jsonSyntaxError
      | some j =>
        Except.ok { state with plan := some (jsonToPlan j), currentStep := some "search" }

/-- The two mock search hits produced per planned sub-query. -/
def mockResults (query : String) : List SearchResult :=
  [⟨"Result 1 for " ++ query,
    "https://example.com/1",
    "This is a mock search result for the query: " ++ query ++
    ". In production, integrate with Tavily, SerpAPI, or Google Custom Search."⟩,
   ⟨"Result 2 for " ++ query,
    "https://example.com/2",
    "Another mock result about " ++ query ++ ". Real implementation would fetch actual web content."⟩]

/-- `executeSearches` of the source: flat-map the mock hits over the plan (no
completion call, no deduplication across sub-queries) and set
`currentStep: 'extract'`. An absent plan leaves `searchResults` absent. -/
def executeSearches (state : ResearchState) : ResearchState :=
  { state with
    searchResults := state.plan.map (fun plan => (plan.map mockResults).flatten),
    currentStep := some "extract" }

/-- The concatenated search-result text built by `extractInformation`; an
absent `searchResults` interpolates as the string `undefined`. -/
def resultsText (state : ResearchState) : String :=
  match state.searchResults with
  | none => "undefined"
  | some rs =>
    String.intercalate "\n\n"
      (rs.map (fun r => "Title: " ++ r.title ++ "\nURL: " ++ r.url ++ "\nContent: " ++ r.snippet))

/-- The completion request built by `extractInformation`, with
`maxTokens: 800`. -/
def extractRequest (state : ResearchState) : CompletionRequest :=
  ⟨[⟨Role.system,
     "You are an information extraction assistant. Extract key facts from search results."⟩,
    ⟨Role.user,
     "Original Query: " ++ state.query ++ "\n\nSearch Results:\n" ++ resultsText state ++
     "\n\nExtract key facts as bullet points. Include source URLs."⟩],
   some 800, none, none⟩

/-- `extractInformation` of the source: one completion call; the response is
split into lines and lines that are empty after trimming are dropped (the
source filters on the truthiness of `line.trim()`). -/
def extractInformation (p : ModelProvider ε) (state : ResearchState) :
    Except (RunError ε) ResearchState :=
  match p.complete (extractRequest state) with
  | Except.error e => Except.error (RunError.upstream e)
  | Except.ok resp =>
    Except.ok { state with
      extractedInfo := some ((splitNl resp.content).filter (fun line => jsTrim line != "")),
      currentStep := some "synthesize" }

/-- The joined facts text built by `synthesizeReport`; an absent
`extractedInfo` interpolates as the string `undefined`. -/
def factsText (state : ResearchState) : String :=
  match state.extractedInfo with
  | none => "undefined"
  | some xs => String.intercalate "\n" xs

/-- The completion request built by `synthesizeReport`, with
`maxTokens: 1500`. -/
def synthesizeRequest (state : ResearchState) : CompletionRequest :=
  ⟨[⟨Role.system,
     "You are a research report writer. Synthesize information into a clear, well-structured report with citations."⟩,
    ⟨Role.user,
     "Original Query: " ++ state.query ++ "\n\nExtracted Facts:\n" ++ factsText state ++
     "\n\nWrite a comprehensive report. Include inline citations like [1], [2]. Then list citations at the end."⟩],
   some 1500, none, none⟩

/-- `synthesizeReport` of the source: one completion call; the full response
content becomes `report`, the deduplicated citation matches become
`citations`, and `currentStep` becomes `'done'`. -/
def synthesizeReport (p : ModelProvider ε) (state : ResearchState) :
    Except (RunError ε) ResearchState :=
  match p.complete (synthesizeRequest state) with
  | Except.error e => Except.error (RunError.upstream e)
  | Except.ok resp =>
    Except.ok { state with
      report := some resp.content,
      citations := some (jsSetDedup (extractCitationMatches resp.content)),
      currentStep := some "done" }

/-- The edge list registered on the `StateGraph` by `createResearchAgent`,
with LangGraph's `__start__` entry marker and `END` (`__end__`) terminal. -/
def researchEdges : List (String × String) :=
  [("__start__", "plan"), ("plan", "search"), ("search", "extract"),
   ("extract", "synthesize"), ("synthesize", "__end__")]

/-- The successor of a node under the registered edge list. -/
def nextNode (node : String) : Option String :=
  researchEdges.lookup node

/-- The stage function registered for each node name; `__start__` and unknown
nodes act as the identity. Each stage returns a delta that LangGraph merges
into the state with last-write-wins per field, which the stage embeddings
above perform directly. -/
def runNode (p : ModelProvider ε) (node : String) (state : ResearchState) :
    Except (RunError ε) ResearchState :=
  if node = "plan" then planResearch p state
  else if node = "search" then Except.ok (executeSearches state)
  else if node = "extract" then extractInformation p state
  else if node = "synthesize" then synthesizeReport p state
  else Except.ok state

/-- The compiled-graph executor: run the current node, follow its unique
outgoing edge, stop at `__end__`. `fuel` bounds the walk; the registered edge
list is acyclic, so `researchEdges.length + 1` steps always reach the
terminal. -/
def runGraph (p : ModelProvider ε) : Nat → String → ResearchState → Except (RunError ε) ResearchState
  | 0, _, state => Except.ok state
  | fuel + 1, node, state =>
    if node = "__end__" then Except.ok state
    else
      match runNode p node state with
      | Except.error e => Except.error e
      | Except.ok state2 =>
        match nextNode node with
        | some next => runGraph p fuel next state2
        | none => Except.ok state2

/-- Invoking the workflow compiled by `createResearchAgent` on a fresh state
holding the query: walk the graph from `__start__`. -/
def runResearchAgent (p : ModelProvider ε) (query : String) :
    Except (RunError ε) ResearchState :=
  runGraph p (researchEdges.length + 1) "__start__" (initialState query)

end Research

/-! ## Concrete stub providers and runs used as test fixtures

Each stub models a deterministic completion collaborator; the error type is
`Unit` since the stubs never fail. -/

namespace RAG

/-- A critique response that never passes the quality gate:
`satisfactory: false`, `confidence: 0.1`. -/
def lowCritiqueJson : String :=
  "\x7b\"satisfactory\": false, \"confidence\": 0.1, \"feedback\": \"needs work\"\x7d"

/-- A critique response that passes the quality gate on the spot:
`satisfactory: true`, `confidence: 0.9`. -/
def goodCritiqueJson : String :=
  "\x7b\"satisfactory\": true, \"confidence\": 0.9, \"feedback\": \"good\"\x7d"

/-- A critique response that fails the 0.8 gate with terminal confidence
0.65. -/
def midCritiqueJson : String :=
  "\x7b\"satisfactory\": true, \"confidence\": 0.65, \"feedback\": \"ok\"\x7d"

/-- A critique response that reports `confidence: 0` explicitly. -/
def zeroCritiqueJson : String :=
  "\x7b\"satisfactory\": true, \"confidence\": 0, \"feedback\": \"f\"\x7d"

/-- Stub provider answering every completion with `lowCritiqueJson`. -/
def pLow : ModelProvider Unit :=
  ⟨"mock", fun _ => Except.ok ⟨lowCritiqueJson⟩⟩

/-- Stub provider answering every completion with `goodCritiqueJson`. -/
def pGood : ModelProvider Unit :=
  ⟨"mock", fun _ => Except.ok ⟨goodCritiqueJson⟩⟩

/-- Stub provider answering every completion with `midCritiqueJson`. -/
def pMid : ModelProvider Unit :=
  ⟨"mock", fun _ => Except.ok ⟨midCritiqueJson⟩⟩

/-- Stub provider answering every completion with `zeroCritiqueJson`. -/
def pZero : ModelProvider Unit :=
  ⟨"mock", fun _ => Except.ok ⟨zeroCritiqueJson⟩⟩

/-- Stub provider whose completion text contains a brace-delimited substring
that is not valid JSON. -/
def pBraceNotJson : ModelProvider Unit :=
  ⟨"mock", fun _ => Except.ok ⟨"\x7bx\x7d"⟩⟩

/-- Stub provider whose completion text contains no brace-delimited
substring at all. -/
def pNoJson : ModelProvider Unit :=
  ⟨"mock", fun _ => Except.ok ⟨"no json here"⟩⟩

/-- The result of the `pGood` run with one allowed iteration. -/
def goodRunResult : AgenticRAGResult :=
  ((agenticRAG pGood "What are the benefits of RAG?" 1).toOption).getD ⟨"", 0, 0, false, []⟩

/-- The result of the `pMid` run: the 0.65-confidence critique never passes
the gate, so the loop runs to the cap with terminal confidence 0.65. -/
def midRunResult : AgenticRAGResult :=
  ((agenticRAG pMid "What are the benefits of RAG?" 3).toOption).getD ⟨"", 0, 0, false, []⟩

/-- The brace-delimited substring matched inside `zeroCritiqueJson`. -/
def zeroMatched : String :=
  (braceMatch zeroCritiqueJson).getD ""

/-- The JSON value parsed from `zeroMatched`. -/
def zeroJson : Json :=
  (jsonParse zeroMatched).getD Json.null

end RAG

namespace Research

/-- Stub provider whose synthesized report repeats citation `[1] http://a`
around `[2] http://b`; the plan and extract stages are irrelevant to the
citation claim. -/
def pCite : ModelProvider Unit :=
  ⟨"mock", fun _ => Except.ok ⟨"Report intro [1] http://a\n[2] http://b\nagain [1] http://a"⟩⟩

/-- Stub provider driving the whole pipeline to `done`: requests are told
apart by their `maxTokens` (300 = plan, 1500 = synthesize, otherwise
extract). -/
def pResearch : ModelProvider Unit :=
  ⟨"mock", fun req =>
    if req.maxTokens = some 300 then Except.ok ⟨"Here: [\"a\"]"⟩
    else if req.maxTokens = some 1500 then
      Except.ok ⟨"Summary. [1] http://a\n[2] http://b\n[1] http://a"⟩
    else Except.ok ⟨"fact one\n\nfact two\n"⟩⟩

/-- Stub provider whose plan response contains a bracket-delimited substring
that is not a valid JSON list. -/
def pBadPlan : ModelProvider Unit :=
  ⟨"mock", fun _ => Except.ok ⟨"pick [1] or [2]"⟩⟩

/-- Stub provider whose plan response contains no bracket-delimited
substring. -/
def pNoList : ModelProvider Unit :=
  ⟨"mock", fun _ => Except.ok ⟨"no list here"⟩⟩

/-- The terminal state of the `pResearch` pipeline run. -/
def doneState : ResearchState :=
  ((runResearchAgent pResearch "What are the latest developments in AI agents?").toOption).getD
    (initialState "")

end Research

end AgentSpec
namespace AgentSpec

namespace RAG

/-- Every `Except.ok` result the critique-refine loop can produce stores
`hallucinationsDetected` as exactly `confidence < 0.7` on its own terminal
confidence: both loop exits build the result record that way. -/
theorem agenticRAGLoop_halluc {ε : Type} (p : ModelProvider ε) (query : String) (maxIterations : Nat) :
    ∀ fuel iteration currentQuery answer confidence log r,
      agenticRAGLoop p query maxIterations fuel iteration currentQuery answer confidence log = Except.ok r →
      r.hallucinationsDetected = decide (r.confidence < mkRat 7 10) := by
  intro fuel
  induction fuel with
  | zero =>
    intro iteration cq ans conf log r h
    simp only [agenticRAGLoop] at h
    injection h with h
    subst h
    rfl
  | succ fuel ih =>
    intro iteration cq ans conf log r h
    simp only [agenticRAGLoop] at h
    by_cases hlt : iteration < maxIterations
    · rw [if_pos hlt] at h
      cases hg : generateAnswer p cq (retrieve cq) with
      | error e => rw [hg] at h; dsimp only at h; cases h
      | ok a =>
        rw [hg] at h
        dsimp only at h
        cases hc : critiqueAnswer p cq a (retrieve cq) with
        | error e => rw [hc] at h; dsimp only at h; cases h
        | ok cr =>
          rw [hc] at h
          dsimp only at h
          by_cases hgate : (cr.satisfactory ∧ mkRat 8 10 ≤ cr.confidence)
          · rw [if_pos hgate] at h
            injection h with h
            subst h
            rfl
          · rw [if_neg hgate] at h
            exact ih _ _ _ _ _ _ h
    · rw [if_neg hlt] at h
      injection h with h
      subst h
      rfl

/-- If the loop is entered with at least one iteration still to run — or with
an answer that already came from a successful `generateAnswer` call — then
any `Except.ok` result carries an answer produced by a successful
`generateAnswer` call on some current query. -/
theorem agenticRAGLoop_answer_from_generate {ε : Type} (p : ModelProvider ε) (query : String)
    (maxIterations : Nat) :
    ∀ fuel iteration currentQuery answer confidence log r,
      ((0 < fuel ∧ iteration < maxIterations) ∨
        ∃ cq, generateAnswer p cq (retrieve cq) = Except.ok answer) →
      agenticRAGLoop p query maxIterations fuel iteration currentQuery answer confidence log = Except.ok r →
      ∃ cq, generateAnswer p cq (retrieve cq) = Except.ok r.answer := by
  intro fuel
  induction fuel with
  | zero =>
    intro iteration cq ans conf log r hinv h
    simp only [agenticRAGLoop] at h
    injection h with h
    subst h
    rcases hinv with ⟨hf, _⟩ | ha
    · omega
    · exact ha
  | succ fuel ih =>
    intro iteration cq ans conf log r hinv h
    simp only [agenticRAGLoop] at h
    by_cases hlt : iteration < maxIterations
    · rw [if_pos hlt] at h
      cases hg : generateAnswer p cq (retrieve cq) with
      | error e => rw [hg] at h; dsimp only at h; cases h
      | ok a =>
        rw [hg] at h
        dsimp only at h
        cases hc : critiqueAnswer p cq a (retrieve cq) with
        | error e => rw [hc] at h; dsimp only at h; cases h
        | ok cr =>
          rw [hc] at h
          dsimp only at h
          by_cases hgate : (cr.satisfactory ∧ mkRat 8 10 ≤ cr.confidence)
          · rw [if_pos hgate] at h
            injection h with h
            subst h
            exact ⟨cq, hg⟩
          · rw [if_neg hgate] at h
            exact ih _ _ _ _ _ _ (Or.inr ⟨cq, hg⟩) h
    · rw [if_neg hlt] at h
      injection h with h
      subst h
      rcases hinv with ⟨_, hi⟩ | ha
      · exact absurd hi hlt
      · exact ha

/-- Evaluating the critique parser on the gate-passing stub text: it parses
to `satisfactory: true`, feedback `good`, confidence `0.9`. -/
theorem critiqueParse_good :
    (critiqueParse goodCritiqueJson : Except (RunError Unit) CritiqueResult) =
      Except.ok ⟨true, "good", mkRat 9 10⟩ := by decide

/-- Claim C1. The claim states that for every `maxIterations = n`,
`agenticRAG` terminates, performs at most `n` critique evaluations, and
returns `iterationCount ≤ n`. The first two parts hold, but the third fails
on the code: with a stub critique that never passes the quality gate and
`n = 3`, exactly 3 critiques are performed (3 refinement-log lines, one per
critique) yet the returned `iterationCount` is 4, because the source reads
the loop variable after its final increment (`iterationCount: iteration + 1`
with `iteration = maxIterations` after a no-break exit). -/
theorem C1_iteration_count_exceeds_cap :
    (agenticRAG pLow "What are the benefits of RAG?" 3).map
      (fun r => (r.iterationCount, r.refinementLog.length)) = Except.ok (4, 3) := by decide

/-- Claim C2. The claim states that when every critique returns
`satisfactory: false, confidence: 0.1`, the loop terminates with
`iterationCount == maxIterations` and returns the last-generated answer. The
run with such a stub indeed terminates with `Except.ok` carrying the
last-generated answer (the stub completion text) and confidence 0.1, but
`iterationCount` is `maxIterations + 1 = 4`, not 3 — the same off-by-one as
in C1. -/
theorem C2_cap_exit_returns_last_answer :
    (agenticRAG pLow "What are the benefits of RAG?" 3).map
      (fun r => (r.answer, r.confidence, r.iterationCount)) =
      Except.ok (lowCritiqueJson, mkRat 1 10, 4) := by decide

/-- Claim C3: if every critique the provider can produce is satisfactory
with confidence at least 0.8 (`mkRat 8 10`) — in particular the one of the
first iteration — and the provider never fails, the loop breaks on iteration
1: the result is `Except.ok` with `iterationCount = 1`, and its answer is
the first generated answer. -/
theorem C3_quality_gate_short_circuit {ε : Type} (p : ModelProvider ε) (query : String)
    (n : Nat) (hn : 1 ≤ n)
    (hgen : ∀ req, ∃ resp, p.complete req = Except.ok resp)
    (hcrit : ∀ q a ctx, ∃ cr, critiqueAnswer p q a ctx = Except.ok cr ∧
      cr.satisfactory = true ∧ mkRat 8 10 ≤ cr.confidence) :
    (agenticRAG p query n).map (fun r => r.iterationCount) = Except.ok 1 ∧
    (agenticRAG p query n).map (fun r => r.answer) =
      generateAnswer p query (retrieve query) := by
  obtain ⟨m, rfl⟩ : ∃ m, n = m + 1 := ⟨n - 1, by omega⟩
  obtain ⟨resp, hresp⟩ := hgen (generateRequest query (retrieve query))
  have ha : generateAnswer p query (retrieve query) = Except.ok resp.content := by
    unfold generateAnswer
    rw [hresp]
  obtain ⟨cr, hcr, hsat, hconf⟩ := hcrit query resp.content (retrieve query)
  have hrun : agenticRAG p query (m + 1) =
      Except.ok ⟨resp.content, cr.confidence, 1, decide (cr.confidence < mkRat 7 10),
        [logLine 0 cr.confidence cr.feedback]⟩ := by
    unfold agenticRAG
    simp only [agenticRAGLoop]
    rw [if_pos (Nat.succ_pos m), ha]
    dsimp only
    rw [hcr]
    dsimp only
    rw [if_pos ⟨hsat, hconf⟩]
    rfl
  rw [hrun, ha]
  exact ⟨rfl, rfl⟩

/-- Witness for C3 at the stub provider whose every critique parses to
`satisfactory: true, confidence: 0.9`: the run with `maxIterations = 3`
stops after one iteration with the first generated answer. -/
theorem C3_witness :
    (agenticRAG pGood "What are the benefits of RAG?" 3).map
      (fun r => r.iterationCount) = Except.ok 1 ∧
    (agenticRAG pGood "What are the benefits of RAG?" 3).map (fun r => r.answer) =
      generateAnswer pGood "What are the benefits of RAG?"
        (retrieve "What are the benefits of RAG?") :=
  C3_quality_gate_short_circuit pGood "What are the benefits of RAG?" 3 (by omega)
    (fun _ => ⟨⟨goodCritiqueJson⟩, rfl⟩)
    (fun q a ctx => ⟨⟨true, "good", mkRat 9 10⟩, critiqueParse_good, rfl, by decide⟩)

end RAG

end AgentSpec
namespace AgentSpec

namespace RAG

/-- Claim C4 (amended): when the critique completion text contains no
brace-delimited substring, `critiqueAnswer` does not raise and returns the
optimistic default `satisfactory: true, confidence: 0.7, feedback: "Unable
to parse critique"`, so the loop continues. (The unamended claim — that this
holds for every completion text — is refuted by `C4_counterexample`: a brace
substring that is not valid JSON makes the unguarded `JSON.parse` throw.) -/
theorem C4_parse_failure_default {ε : Type} (p : ModelProvider ε) (q a : String)
    (ctx : List String) (resp : CompletionResponse)
    (hresp : p.complete (critiqueRequest q a ctx) = Except.ok resp)
    (hnm : braceMatch resp.content = none) :
    critiqueAnswer p q a ctx = Except.ok ⟨true, "Unable to parse critique", mkRat 7 10⟩ := by
  unfold critiqueAnswer
  rw [hresp]
  dsimp only
  unfold critiqueParse
  rw [hnm]

/-- Witness for C4 at a stub whose completion text `no json here` has no
brace-delimited substring: the critique degrades to the default. -/
theorem C4_witness :
    critiqueAnswer pNoJson "q" "a" ["c"] =
      Except.ok ⟨true, "Unable to parse critique", mkRat 7 10⟩ :=
  C4_parse_failure_default pNoJson "q" "a" ["c"] ⟨"no json here"⟩ rfl (by decide)

/-- Counterexample to C4 as stated: for the completion text `\x7bx\x7d` the
object match succeeds but `JSON.parse` throws, so `critiqueAnswer` raises —
and the raise propagates out of the whole loop. -/
theorem C4_counterexample :
    critiqueAnswer pBraceNotJson "q" "a" ["c"] = Except.error RunError.jsonSyntaxError ∧
    agenticRAG pBraceNotJson "q" 3 = Except.error RunError.jsonSyntaxError := by
  constructor
  · decide
  · decide

/-- Claim C6 (amended): for `maxIterations ≥ 1` the loop — a total function,
so it never diverges — either propagates an upstream error or returns a
result whose answer is the content of a successful `generateAnswer`
completion call (hence non-empty whenever the provider's generated contents
are). For `maxIterations = 0` the unamended claim fails: see
`C6_counterexample`. -/
theorem C6_answer_provenance {ε : Type} (p : ModelProvider ε) (q : String) (n : Nat)
    (hn : 1 ≤ n) (r : AgenticRAGResult) (h : agenticRAG p q n = Except.ok r) :
    ∃ cq, generateAnswer p cq (retrieve cq) = Except.ok r.answer :=
  agenticRAGLoop_answer_from_generate p q n n 0 q "" 0 [] r
    (Or.inl ⟨by omega, by omega⟩) h

/-- Witness for C6 at the gate-passing stub with one allowed iteration. -/
theorem C6_witness :
    ∃ cq, generateAnswer pGood cq (retrieve cq) = Except.ok goodRunResult.answer :=
  C6_answer_provenance pGood "What are the benefits of RAG?" 1 (by omega) goodRunResult
    (by decide)

/-- Counterexample to C6 as stated (for every `maxIterations`): at
`maxIterations = 0` the loop body never runs and the call silently returns
`Except.ok` with the initial empty answer, confidence 0 — and
`iterationCount = 1 > 0`. -/
theorem C6_counterexample :
    agenticRAG pGood "q" 0 = Except.ok ⟨"", 0, 1, true, []⟩ := by decide

/-- Claim C9: on every `Except.ok` result of `agenticRAG`, the
`hallucinationsDetected` flag equals `confidence < 0.7` evaluated at the
terminal confidence; in particular terminal confidence 0.65 (`mkRat 65 100`)
forces the flag `true` and terminal confidence 0.75 (`mkRat 75 100`) forces
it `false`. -/
theorem C9_hallucination_flag {ε : Type} (p : ModelProvider ε) (q : String) (n : Nat)
    (r : AgenticRAGResult) (h : agenticRAG p q n = Except.ok r) :
    r.hallucinationsDetected = decide (r.confidence < mkRat 7 10) ∧
    (r.confidence = mkRat 65 100 → r.hallucinationsDetected = true) ∧
    (r.confidence = mkRat 75 100 → r.hallucinationsDetected = false) := by
  have hflag := agenticRAGLoop_halluc p q n n 0 q "" 0 [] r h
  refine ⟨hflag, fun hc => ?_, fun hc => ?_⟩
  · rw [hflag, hc]
    decide
  · rw [hflag, hc]
    decide

/-- Witness for C9 at the stub whose critiques report confidence 0.65 and
never pass the gate: the terminal confidence is 0.65 and the flag is set. -/
theorem C9_witness :
    midRunResult.hallucinationsDetected = decide (midRunResult.confidence < mkRat 7 10) ∧
    (midRunResult.confidence = mkRat 65 100 → midRunResult.hallucinationsDetected = true) ∧
    (midRunResult.confidence = mkRat 75 100 → midRunResult.hallucinationsDetected = false) :=
  C9_hallucination_flag pMid "What are the benefits of RAG?" 3 midRunResult (by decide)

/-- Claim C10: when the parsed critique object carries a `confidence` field
that is absent, `null`, or exactly `0`, `critiqueAnswer` coerces the
confidence to the default 0.7 (`mkRat 7 10`) — the JavaScript
`critique.confidence || 0.7` — and 0.7 is not below the 0.7 hallucination
threshold, so such a critique, if terminal, yields
`hallucinationsDetected = false`. -/
theorem C10_zero_confidence_coerced {ε : Type} (p : ModelProvider ε) (q a : String)
    (ctx : List String) (resp : CompletionResponse) (m : String) (j : Json)
    (hresp : p.complete (critiqueRequest q a ctx) = Except.ok resp)
    (hm : braceMatch resp.content = some m)
    (hj : jsonParse m = some j)
    (hc : jsGet j "confidence" = none ∨ jsGet j "confidence" = some Json.null ∨
      jsGet j "confidence" = some (Json.num 0)) :
    (critiqueAnswer p q a ctx).map (fun cr => cr.confidence) = Except.ok (mkRat 7 10) ∧
    (critiqueAnswer p q a ctx).map (fun cr => decide (cr.confidence < mkRat 7 10)) =
      Except.ok false := by
  have hca : critiqueAnswer p q a ctx =
      Except.ok ⟨jsTruthy (jsGet j "satisfactory"), jsStringField (jsGet j "feedback"),
        jsNumOrDefault (jsGet j "confidence") (mkRat 7 10)⟩ := by
    unfold critiqueAnswer
    rw [hresp]
    dsimp only
    unfold critiqueParse
    rw [hm]
    dsimp only
    rw [hj]
  have hconf : jsNumOrDefault (jsGet j "confidence") (mkRat 7 10) = mkRat 7 10 := by
    rcases hc with h | h | h <;> rw [h] <;> decide
  rw [hca]
  dsimp only [Except.map]
  rw [hconf]
  exact ⟨rfl, rfl⟩

/-- Witness for C10 at the stub whose critique reports `confidence: 0`
explicitly: the parsed confidence is coerced to 0.7 and the flag computation
on it is `false`. -/
theorem C10_witness :
    (critiqueAnswer pZero "q" "a" ["c"]).map (fun cr => cr.confidence) =
      Except.ok (mkRat 7 10) ∧
    (critiqueAnswer pZero "q" "a" ["c"]).map (fun cr => decide (cr.confidence < mkRat 7 10)) =
      Except.ok false :=
  C10_zero_confidence_coerced pZero "q" "a" ["c"] ⟨zeroCritiqueJson⟩ zeroMatched zeroJson
    rfl (by decide) rfl (Or.inr (Or.inr rfl))

end RAG

end AgentSpec
namespace AgentSpec

namespace Research

/-- The compiled research graph walks exactly the registered linear chain:
invoking it runs Plan, then Search, then Extract, then Synthesize, and
stops. -/
theorem runResearchAgent_eq {ε : Type} (p : ModelProvider ε) (q : String) :
    runResearchAgent p q =
      match planResearch p (initialState q) with
      | Except.error e => Except.error e
      | Except.ok st1 =>
        match extractInformation p (executeSearches st1) with
        | Except.error e => Except.error e
        | Except.ok st3 =>
          match synthesizeReport p st3 with
          | Except.error e => Except.error e
          | Except.ok st4 => Except.ok st4 := by
  rfl

/-- Whenever `synthesizeReport` returns a state, that state carries a
report, citations, and `currentStep = "done"`. -/
theorem synthesizeReport_fields {ε : Type} (p : ModelProvider ε) (st st2 : ResearchState)
    (h : synthesizeReport p st = Except.ok st2) :
    st2.report.isSome = true ∧ st2.citations.isSome = true ∧
    st2.currentStep = some "done" := by
  unfold synthesizeReport at h
  cases hr : p.complete (synthesizeRequest st) with
  | error e => rw [hr] at h; dsimp only at h; cases h
  | ok resp =>
    rw [hr] at h
    dsimp only at h
    injection h with h
    subst h
    exact ⟨rfl, rfl, rfl⟩

/-- Claim C5 (amended): `planResearch` falls back to the single-element plan
`[query]` exactly when the completion text contains no bracket-delimited
substring, and then sets `currentStep` to `search`. (The unamended claim —
that a fallback happens whenever no syntactically valid list literal is
present, so the stage never fails the run — is refuted by
`C5_counterexample`: a bracket substring that is not valid JSON makes the
unguarded `JSON.parse` throw.) -/
theorem C5_plan_fallback {ε : Type} (p : ModelProvider ε) (st : ResearchState)
    (resp : CompletionResponse)
    (hresp : p.complete (planRequest st.query) = Except.ok resp)
    (hnm : bracketMatch resp.content = none) :
    planResearch p st =
      Except.ok { st with plan := some [st.query], currentStep := some "search" } := by
  unfold planResearch
  rw [hresp]
  dsimp only
  rw [hnm]

/-- Witness for C5 at a stub whose plan response `no list here` contains no
bracket-delimited substring: the plan is the original query verbatim. -/
theorem C5_witness :
    planResearch pNoList (initialState "orig query") =
      Except.ok { initialState "orig query" with
        plan := some ["orig query"], currentStep := some "search" } :=
  C5_plan_fallback pNoList (initialState "orig query") ⟨"no list here"⟩ rfl (by decide)

/-- Counterexample to C5 as stated: for the plan response `pick [1] or [2]`
the bracket match succeeds with `[1] or [2]`, which is not a valid JSON
list, so `JSON.parse` throws and `planResearch` fails the run instead of
falling back. -/
theorem C5_counterexample :
    planResearch pBadPlan (initialState "q") = Except.error RunError.jsonSyntaxError := by
  decide

/-- Claim C7: citation extraction in the Synthesize stage scans the full
completion text with the `[n] ... url` pattern and deduplicates matches
preserving first-seen order: for a report repeating `[1] http://a` around
`[2] http://b`, exactly the two distinct citations survive, in first-seen
order. -/
theorem C7_citation_dedup_first_seen :
    (synthesizeReport pCite (initialState "q")).map (fun st => st.citations) =
      Except.ok (some ["[1] http://a", "[2] http://b"]) := by decide

/-- Claim C8: the research pipeline is a linear state machine — each node
has exactly one outgoing edge, forming the chain
start → plan → search → extract → synthesize → end over the five registered
edges — and whenever the walk completes (the completion capability did not
fail en route), the terminal state carries `report` and `citations`, with
`currentStep = "done"`. -/
theorem C8_linear_pipeline_done_fields {ε : Type} (p : ModelProvider ε) (q : String)
    (st : ResearchState) (h : runResearchAgent p q = Except.ok st) :
    nextNode "__start__" = some "plan" ∧ nextNode "plan" = some "search" ∧
    nextNode "search" = some "extract" ∧ nextNode "extract" = some "synthesize" ∧
    nextNode "synthesize" = some "__end__" ∧ researchEdges.length = 5 ∧
    st.report.isSome = true ∧ st.citations.isSome = true ∧
    st.currentStep = some "done" := by
  refine ⟨by decide, by decide, by decide, by decide, by decide, by decide, ?_⟩
  rw [runResearchAgent_eq] at h
  cases hp : planResearch p (initialState q) with
  | error e => rw [hp] at h; dsimp only at h; cases h
  | ok st1 =>
    rw [hp] at h
    dsimp only at h
    cases hx : extractInformation p (executeSearches st1) with
    | error e => rw [hx] at h; dsimp only at h; cases h
    | ok st3 =>
      rw [hx] at h
      dsimp only at h
      cases hs : synthesizeReport p st3 with
      | error e => rw [hs] at h; dsimp only at h; cases h
      | ok st4 =>
        rw [hs] at h
        dsimp only at h
        injection h with h
        subst h
        exact synthesizeReport_fields p st3 st4 hs

/-- Witness for C8: the deterministic stub pipeline reaches the terminal
state with a report, two citations, and `currentStep = "done"`. -/
theorem C8_witness :
    nextNode "__start__" = some "plan" ∧ nextNode "plan" = some "search" ∧
    nextNode "search" = some "extract" ∧ nextNode "extract" = some "synthesize" ∧
    nextNode "synthesize" = some "__end__" ∧ researchEdges.length = 5 ∧
    doneState.report.isSome = true ∧ doneState.citations.isSome = true ∧
    doneState.currentStep = some "done" :=
  C8_linear_pipeline_done_fields pResearch "What are the latest developments in AI agents?"
    doneState (by decide)

end Research

end AgentSpec
